import Mathlib

/-!
# Browser scripts of the donor-management pages

A state-passing model of the three scripts

* `src/static/js/main.js` (namespace `StaticMain`): the mobile menu,
* `src/staticfiles/js/main.js` (namespace `StaticfilesMain`): the mobile menu
  and the password-strength indicator,
* `src/staticfiles/js/donor_report.js` (namespace `DonorReport`): the report
  form, its progress animation, the alert banner and field validation.

The DOM is represented by records holding exactly the attributes, classes and
style properties the scripts read or write.  An element that a script looks up
and dereferences without a null check is a plain field; an element whose use is
guarded (`if (icon)`, `if (lengthCheck)`, ...) is an `Option`.
-/

namespace Dom

/-- The call `classList.contains(token)`. -/
def contains (classList : List String) (token : String) : Bool :=
  classList.contains token

/-- The call `classList.add(token)`: the token is appended unless present. -/
def add (classList : List String) (token : String) : List String :=
  if classList.contains token then classList else classList ++ [token]

/-- The call `classList.remove(token)`. -/
def remove (classList : List String) (token : String) : List String :=
  classList.filter (fun c => c != token)

/-- Number of UTF-16 code units of one character. -/
def codeUnits (c : Char) : Nat :=
  if c.toNat < 65536 then 1 else 2

/-- The property `length` of a JavaScript string: its UTF-16 code units. -/
def jsLength (s : String) : Nat :=
  (s.data.map codeUnits).sum

end Dom

/-! ## `src/staticfiles/js/main.js`: password-strength indicator -/

namespace StaticfilesMain

/-- An element of which the script sets `textContent` and `className`. -/
structure TextEl where
  textContent : String
  className : String
deriving DecidableEq, Repr

/-- The element `#password-strength-bar`: `style.width` and `className`. -/
structure BarEl where
  width : String
  className : String
deriving DecidableEq, Repr

/-- The elements captured by `initPasswordStrengthIndicator` (lines 153-159).
The four requirement indicators are used under a null guard. -/
structure PasswordDom where
  strengthText : TextEl
  strengthBar : BarEl
  lengthCheck : Option TextEl
  uppercaseCheck : Option TextEl
  lowercaseCheck : Option TextEl
  specialCheck : Option TextEl
deriving DecidableEq, Repr

/-- The cross written by `resetChecks` and `updateCheck(_, false)`, as the
file stores it (lines 240 and 255). -/
def crossMark : String := "âœ—"

/-- The tick written by `updateCheck(_, true)`, as the file stores it (line 255). -/
def checkMark : String := "âœ“"

/-- One guarded pair of assignments of `resetChecks`. -/
def resetCheck (element : Option TextEl) : Option TextEl :=
  match element with
  | none => none
  | some _ => some { textContent := crossMark, className := "text-red-500 mr-2" }

/-- Lines 239-249. -/
def resetChecks (d : PasswordDom) : PasswordDom :=
  { d with
    lengthCheck := resetCheck d.lengthCheck
    uppercaseCheck := resetCheck d.uppercaseCheck
    lowercaseCheck := resetCheck d.lowercaseCheck
    specialCheck := resetCheck d.specialCheck }

/-- Lines 252-257. -/
def updateCheck (element : Option TextEl) (isMet : Bool) : Option TextEl :=
  match element with
  | none => none
  | some _ =>
    some { textContent := if isMet then checkMark else crossMark
           className := if isMet then "text-green-500 mr-2" else "text-red-500 mr-2" }

/-- The test `/[A-Z]/.test(password)`. -/
def hasUppercase (password : String) : Bool :=
  password.data.any (fun c => decide ('A' ≤ c ∧ c ≤ 'Z'))

/-- The test `/[a-z]/.test(password)`. -/
def hasLowercase (password : String) : Bool :=
  password.data.any (fun c => decide ('a' ≤ c ∧ c ≤ 'z'))

/-- The characters of the class in the regular expression of line 210. -/
def specialChars : List Char := "!@#$%^&*(),.?\":\x7b\x7d|<>".data

/-- The test of line 210. -/
def hasSpecial (password : String) : Bool :=
  password.data.any (fun c => specialChars.contains c)

/-- The test `password.length >= 8`. -/
def longEnough (password : String) : Bool :=
  decide (Dom.jsLength password ≥ 8)

/-- The local variable `strength` together with the elements, while the four
rules are checked. -/
structure CheckState where
  strength : Nat
  dom : PasswordDom
deriving DecidableEq, Repr

/-- Lines 192-195. -/
def checkLength (password : String) (st : CheckState) : CheckState :=
  if longEnough password then
    { strength := st.strength + 25
      dom := { st.dom with lengthCheck := updateCheck st.dom.lengthCheck true } }
  else st

/-- Lines 198-201. -/
def checkUppercase (password : String) (st : CheckState) : CheckState :=
  if hasUppercase password then
    { strength := st.strength + 25
      dom := { st.dom with uppercaseCheck := updateCheck st.dom.uppercaseCheck true } }
  else st

/-- Lines 204-207. -/
def checkLowercase (password : String) (st : CheckState) : CheckState :=
  if hasLowercase password then
    { strength := st.strength + 25
      dom := { st.dom with lowercaseCheck := updateCheck st.dom.lowercaseCheck true } }
  else st

/-- Lines 210-213. -/
def checkSpecial (password : String) (st : CheckState) : CheckState :=
  if hasSpecial password then
    { strength := st.strength + 25
      dom := { st.dom with specialCheck := updateCheck st.dom.specialCheck true } }
  else st

/-- Lines 189-213: `strength` starts at 0 and the four rules are checked in order. -/
def ruleChecks (d : PasswordDom) (password : String) : CheckState :=
  checkSpecial password
    (checkLowercase password
      (checkUppercase password
        (checkLength password { strength := 0, dom := d })))

/-- Lines 216-235: the bar width and the text for a given `strength`. -/
def showStrength (d : PasswordDom) (strength : Nat) : PasswordDom :=
  let d := { d with strengthBar := { d.strengthBar with width := toString strength ++ "%" } }
  if strength ≤ 25 then
    { d with
      strengthText := { textContent := "Password strength: Very Weak", className := "text-red-500" }
      strengthBar := { d.strengthBar with className := "h-full bg-red-500 transition-all duration-300" } }
  else if strength ≤ 50 then
    { d with
      strengthText := { textContent := "Password strength: Weak", className := "text-orange-500" }
      strengthBar := { d.strengthBar with className := "h-full bg-orange-500 transition-all duration-300" } }
  else if strength ≤ 75 then
    { d with
      strengthText := { textContent := "Password strength: Medium", className := "text-yellow-500" }
      strengthBar := { d.strengthBar with className := "h-full bg-yellow-500 transition-all duration-300" } }
  else
    { d with
      strengthText := { textContent := "Password strength: Strong", className := "text-green-500" }
      strengthBar := { d.strengthBar with className := "h-full bg-green-500 transition-all duration-300" } }

/-- Lines 177-236. -/
def checkPasswordStrength (d : PasswordDom) (password : String) : PasswordDom :=
  let d := resetChecks d
  if password = "" then
    { d with
      strengthText := { textContent := "Password strength: Not set", className := "text-gray-500" }
      strengthBar := { width := "0%", className := "h-full bg-gray-300 transition-all duration-300" } }
  else
    let st := ruleChecks d password
    showStrength st.dom st.strength

/-- The value of the local variable `strength` when line 216 is reached, and 0
for the empty password, for which the function returns before declaring it. -/
def computedStrength (d : PasswordDom) (password : String) : Nat :=
  if password = "" then 0 else (ruleChecks (resetChecks d) password).strength

/-- How many of the four rules a password meets. -/
def rulesMet (password : String) : Nat :=
  (if longEnough password then 1 else 0) + (if hasUppercase password then 1 else 0)
    + (if hasLowercase password then 1 else 0) + (if hasSpecial password then 1 else 0)

/-- An indicator shows the met state: the tick, in green. -/
def showsMet (element : TextEl) : Prop :=
  element.textContent = checkMark ∧ element.className = "text-green-500 mr-2"

/-- An indicator is in the reset state: the cross, in red. -/
def showsNotMet (element : TextEl) : Prop :=
  element.textContent = crossMark ∧ element.className = "text-red-500 mr-2"

/-- Rank of the five labels, from `Not set` up to `Strong`; 0 for any other text. -/
def labelLevel (text : String) : Nat :=
  if text = "Password strength: Very Weak" then 1
  else if text = "Password strength: Weak" then 2
  else if text = "Password strength: Medium" then 3
  else if text = "Password strength: Strong" then 4
  else 0

end StaticfilesMain

/-! ## The mobile menu: state shared by both `main.js` files -/

namespace Menu

/-- A menu button: its `aria-expanded` attribute and the `innerHTML` of its first
`svg` descendant (`none` when `querySelector('svg')` finds nothing). -/
structure ButtonEl where
  ariaExpanded : Option String
  icon : Option String
deriving DecidableEq, Repr

/-- The document before `initMobileMenu` runs: the results of the two
`getElementById` calls (the button, and the class list of the menu) and the
style and class list of `document.body`. -/
structure Document where
  button : Option ButtonEl
  menu : Option (List String)
  bodyOverflow : String
  bodyClassList : List String
deriving DecidableEq, Repr

/-- What the closures created by `initMobileMenu` see.  `mobileMenuButton` is
the element found by `getElementById('mobile-menu-button')`; `newButton` is its
clone, which `replaceChild` put into the document in its place and which
carries the click and touchstart listeners. -/
structure State where
  menuClassList : List String
  bodyOverflow : String
  bodyClassList : List String
  mobileMenuButton : ButtonEl
  newButton : ButtonEl
deriving DecidableEq, Repr

/-- The markup assigned to the icon when the menu opens. -/
def xPath : String :=
  "<path stroke-linecap=\"round\" stroke-linejoin=\"round\" stroke-width=\"2\" d=\"M6 18L18 6M6 6l12 12\"></path>"

/-- The markup assigned to the icon when the menu closes. -/
def hamburgerPath : String :=
  "<path stroke-linecap=\"round\" stroke-linejoin=\"round\" stroke-width=\"2\" d=\"M4 6h16M4 12h16m-7 6h7\"></path>"

/-- The statements `const icon = button.querySelector('svg'); if (icon) icon.innerHTML = markup`. -/
def setIcon (b : ButtonEl) (markup : String) : ButtonEl :=
  match b.icon with
  | none => b
  | some _ => { b with icon := some markup }

/-- The test `mobileMenu.classList.contains('hidden')`. -/
def isHidden (s : State) : Bool :=
  Dom.contains s.menuClassList "hidden"

/-- The steps of the "show menu" branch of `toggleMobileMenu`, identical in both files. -/
def openMenu (s : State) : State :=
  { s with
    menuClassList := Dom.remove s.menuClassList "hidden"
    mobileMenuButton := setIcon { s.mobileMenuButton with ariaExpanded := some "true" } xPath
    bodyOverflow := "hidden"
    bodyClassList := Dom.add s.bodyClassList "menu-open" }

/-- The function `closeMobileMenu`, identical in both files up to the logged text. -/
def closeMobileMenu (s : State) : State :=
  { s with
    menuClassList := Dom.add s.menuClassList "hidden"
    mobileMenuButton := setIcon { s.mobileMenuButton with ariaExpanded := some "false" } hamburgerPath
    bodyOverflow := ""
    bodyClassList := Dom.remove s.bodyClassList "menu-open" }

/-- The part of `initMobileMenu` up to `replaceChild`: nothing is set up unless
both elements exist; otherwise the button is cloned with its attributes and
subtree and the clone takes its place in the document. -/
def initMobileMenu (doc : Document) : Option State :=
  match doc.button, doc.menu with
  | some mobileMenuButton, some mobileMenu =>
    some { menuClassList := mobileMenu
           bodyOverflow := doc.bodyOverflow
           bodyClassList := doc.bodyClassList
           mobileMenuButton := mobileMenuButton
           newButton := mobileMenuButton }
  | _, _ => none

/-- A page whose menu is hidden and whose button shows the hamburger icon
with `aria-expanded="false"`. -/
def closedPage : Document :=
  { button := some { ariaExpanded := some "false", icon := some hamburgerPath }
    menu := some ["hidden"]
    bodyOverflow := ""
    bodyClassList := [] }

/-- The state with the menu open: no class `hidden`, body scrolling locked. -/
def openState : State :=
  { menuClassList := []
    bodyOverflow := "hidden"
    bodyClassList := ["menu-open"]
    mobileMenuButton := { ariaExpanded := some "true", icon := some xPath }
    newButton := { ariaExpanded := some "false", icon := some hamburgerPath } }

/-- The keydown listener on `document`, identical in both files. -/
def keydownListener (s : State) (key : String) : State :=
  if key = "Escape" ∧ ¬ isHidden s = true then closeMobileMenu s else s

end Menu

/-! ## `src/static/js/main.js` -/

namespace StaticMain

open Menu

/-- Lines 14-45: the hide branch repeats the statements of `closeMobileMenu`. -/
def toggleMobileMenu (s : State) : State :=
  if isHidden s then openMenu s
  else
    { s with
      menuClassList := Dom.add s.menuClassList "hidden"
      mobileMenuButton := setIcon { s.mobileMenuButton with ariaExpanded := some "false" } hamburgerPath
      bodyOverflow := ""
      bodyClassList := Dom.remove s.bodyClassList "menu-open" }

/-- Where the target of a click lies relative to the elements that carry listeners. -/
inductive ClickTarget where
  /-- The button in the document (`newButton`) or one of its descendants. -/
  | button
  /-- A link of the menu or a descendant of one. -/
  | menuLink
  /-- The menu element or a descendant that is not inside a link. -/
  | menuOther
  /-- An element that neither the menu nor the button contains. -/
  | outside
deriving DecidableEq, Repr

/-- Lines 91-98: the click listener on `document`, given the two `contains` tests. -/
def documentClickListener (s : State) (inMenu inButton : Bool) : State :=
  if (!inMenu && !inButton && !isHidden s) = true then closeMobileMenu s else s

/-- The listeners of `initMobileMenu` that a click runs, in bubbling order.  The
button listener stops propagation, so the document listener does not follow it. -/
def click (s : State) (target : ClickTarget) : State :=
  match target with
  | .button => toggleMobileMenu s
  | .menuLink => documentClickListener (closeMobileMenu s) true false
  | .menuOther => documentClickListener s true false
  | .outside => documentClickListener s false false

end StaticMain

/-! ## `src/staticfiles/js/main.js`: mobile menu -/

namespace StaticfilesMain

open Menu

/-- Lines 15-36. -/
def toggleMobileMenu (s : State) : State :=
  if isHidden s then openMenu s else closeMobileMenu s

/-- Where the target of a click lies relative to the elements that carry listeners. -/
inductive ClickTarget where
  /-- The button in the document (`newButton`) or one of its descendants. -/
  | button
  /-- The element `#mobile-menu-close` or a descendant, on a page that has one. -/
  | closeButton
  /-- A link of the menu or a descendant of one. -/
  | menuLink
  /-- The menu element itself (the backdrop). -/
  | menuItself
  /-- A descendant of the menu outside its links and its close button. -/
  | menuOther
  /-- An element that neither the menu nor the button contains. -/
  | outside
deriving DecidableEq, Repr

/-- Lines 92-97: the click listener on the menu, given the test `event.target === mobileMenu`. -/
def menuClickListener (s : State) (targetIsMenu : Bool) : State :=
  if targetIsMenu then closeMobileMenu s else s

/-- The listeners of `initMobileMenu` that a click runs, in bubbling order.  The
listeners of the button and of the close button stop propagation; the menu
listener is only reached by events whose target the menu contains. -/
def click (s : State) (target : ClickTarget) : State :=
  match target with
  | .button => toggleMobileMenu s
  | .closeButton => closeMobileMenu s
  | .menuLink => menuClickListener (closeMobileMenu s) false
  | .menuItself => menuClickListener s true
  | .menuOther => menuClickListener s false
  | .outside => s

end StaticfilesMain

/-! ## `src/staticfiles/js/donor_report.js` -/

namespace DonorReport

/-- A value read from the parsed response.  `object` stands for any array or
object; a number is given by its exact value. -/
inductive JsValue where
  | undefined
  | null
  | bool (b : Bool)
  | number (q : ℚ)
  | string (s : String)
  | object
deriving DecidableEq, Repr

/-- Conversion to boolean, as applied by `if (v)` and by the operator `||`. -/
def truthy : JsValue → Bool
  | .undefined => false
  | .null => false
  | .bool b => b
  | .number q => decide (q ≠ 0)
  | .string s => decide (s ≠ "")
  | .object => true

/-- The expression `a || b`. -/
def orElse (a b : JsValue) : JsValue :=
  if truthy a then a else b

/-- The three properties the handler reads from the parsed response; a
property that the value does not have reads as `undefined`. -/
structure Data where
  success : JsValue
  message : JsValue
  download_url : JsValue
deriving DecidableEq, Repr

/-- How the promise returned by `fetch(...).then(response => response.json())` settles. -/
inductive FetchOutcome where
  /-- The promise of `fetch` rejected. -/
  | rejected
  /-- The body is not JSON: `response.json()` rejected. -/
  | invalidJson
  /-- The body parsed to `null`; reading `data.success` throws a `TypeError`. -/
  | parsedNull
  /-- The body parsed to any other value. -/
  | parsed (data : Data)
deriving DecidableEq, Repr

/-- A call of `fetch`: the URL and the options passed. -/
structure Request where
  url : String
  method : String
  headers : List (String × String)
  body : Option (List (String × String))
deriving DecidableEq, Repr

/-- The arguments of one call of `showAlert`. -/
structure AlertCall where
  type : String
  title : String
  message : JsValue
deriving DecidableEq, Repr

/-- The element built from the markup of lines 106-121.  `id` tells apart the
elements created by different calls. -/
structure AlertEl where
  id : Nat
  classList : List String
  icon : String
  title : String
  message : JsValue
deriving DecidableEq, Repr

/-- The callbacks passed to `setTimeout`. -/
inductive Callback where
  /-- Line 24. -/
  | addShow
  /-- Line 47. -/
  | redirect (url : JsValue)
  /-- Line 52. -/
  | reload
  /-- Lines 65-74. -/
  | resetButton
  /-- Lines 72-73. -/
  | hideProgress
  /-- Lines 128-132. -/
  | autoDismiss
  /-- Line 131, for the element found by line 128. -/
  | removeAlert (id : Nat)
deriving DecidableEq, Repr

/-- A pending timeout. -/
structure Timer where
  delay : Nat
  callback : Callback
deriving DecidableEq, Repr

/-- A value of `style.width`: a number followed by `%`, or not set by the script. -/
inductive CssWidth where
  | unset
  | percent (value : ℚ)
deriving DecidableEq, Repr

/-- A button: class list, `innerHTML` and `disabled`. -/
structure ButtonEl where
  classList : List String
  innerHTML : String
  disabled : Bool
deriving DecidableEq, Repr

/-- The element `#progressContainer`: `style.display` and class list. -/
structure ContainerEl where
  display : String
  classList : List String
deriving DecidableEq, Repr

/-- A navigation requested through `window.location`. -/
inductive Navigation where
  | assign (url : JsValue)
  | reload
deriving DecidableEq, Repr

/-- The page as the script sees it: the elements it looks up, the closure
variables of `animateProgress` (`progress`, and whether its interval is still
set), and what it has asked of the browser (requests, timeouts, navigations).
`alertCalls` records the calls of `showAlert` in order. -/
structure Page where
  generateBtn : ButtonEl
  progressContainer : ContainerEl
  progressFillWidth : CssWidth
  progressText : String
  alertContainer : List AlertEl
  nextId : Nat
  csrfToken : String
  formData : List (String × String)
  retryBtn : ButtonEl
  progress : ℚ
  intervalActive : Bool
  requests : List Request
  timers : List Timer
  navigations : List Navigation
  alertCalls : List AlertCall
deriving DecidableEq, Repr

/-- The call `setTimeout(callback, delay)`. -/
def setTimeout (s : Page) (callback : Callback) (delay : Nat) : Page :=
  { s with timers := s.timers ++ [{ delay := delay, callback := callback }] }

/-- Lines 105-135.  The container's content is replaced by the one element the
markup describes; its class attribute is `alert alert-${type} alert-dismissible fade-in`.
The type, the title and the message are taken to be text without markup. -/
def showAlert (s : Page) (type title : String) (message : JsValue) : Page :=
  let alert : AlertEl :=
    { id := s.nextId
      classList := ["alert", "alert-" ++ type, "alert-dismissible", "fade-in"]
      icon := if type = "success" then "fas fa-check-circle" else "fas fa-exclamation-triangle"
      title := title
      message := message }
  let s := { s with
    alertContainer := [alert]
    nextId := s.nextId + 1
    alertCalls := s.alertCalls ++ [{ type := type, title := title, message := message }] }
  if type = "success" then setTimeout s .autoDismiss 5000 else s

/-- Rounding to the nearest integer, a tie going to the even one. -/
def roundHalfEven (x : ℚ) : ℤ :=
  if x - ⌊x⌋ < 1 / 2 then ⌊x⌋
  else if 1 / 2 < x - ⌊x⌋ then ⌊x⌋ + 1
  else if ⌊x⌋ % 2 = 0 then ⌊x⌋ else ⌊x⌋ + 1

/-- The doubles around `q` are the multiples of 2 to this power: 52 below the
binary exponent of `q`, and -1074 in the subnormal range. -/
def ulpExponent (q : ℚ) : ℤ :=
  max (Int.log 2 |q| - 52) (-1074)

/-- The double nearest to `q`, a tie going to the even significand: the result
of a double operation whose exact result is `q`.  Doubles are given by their
exact values; magnitudes of 2^1024 and more, where the result is `Infinity`, are
not covered. -/
def roundDouble (q : ℚ) : ℚ :=
  roundHalfEven (q / 2 ^ ulpExponent q) * 2 ^ ulpExponent q

/-- The expression `Math.random() * 15` for the double `random` returned by
`Math.random()`; a value that is not a double is first read as the nearest
one, which leaves every double as it is. -/
def increment (random : ℚ) : ℚ :=
  roundDouble (roundDouble random * 15)

/-- Lines 81-83: `progress` starts at 0 and the interval is set. -/
def animateProgress (s : Page) : Page :=
  { s with progress := 0, intervalActive := true }

/-- Lines 84-100: the interval callback, for the value `random` returned by
`Math.random()`.  The product and the sum of `progress += Math.random() * 15`
are rounded as double arithmetic rounds them. -/
def progressTick (s : Page) (random : ℚ) : Page :=
  let progress := roundDouble (s.progress + increment random)
  let over : Bool := decide (progress > 90)
  let progress := if over then 90 else progress
  { s with
    progress := progress
    intervalActive := if over then false else s.intervalActive
    progressFillWidth := .percent progress
    progressText :=
      if progress < 30 then "Collecting donor data..."
      else if progress < 60 then "Processing donations..."
      else if progress < 90 then "Generating report..."
      else "Finalizing..." }

/-- One period of the interval: the callback runs unless `clearInterval` was called. -/
def intervalElapsed (s : Page) (random : ℚ) : Page :=
  if s.intervalActive then progressTick s random else s

/-- The page after the interval period elapsed once for each value of `randoms`. -/
def runInterval (s : Page) (randoms : List ℚ) : Page :=
  randoms.foldl intervalElapsed s

/-- The values written to the bar, one for each tick that ran. -/
def written (s : Page) : List ℚ → List ℚ
  | [] => []
  | r :: rs =>
    if s.intervalActive then
      (progressTick s r).progress :: written (progressTick s r) rs
    else written s rs

/-- The value `progress` accumulates by `progress += Math.random() * 15` over
the given random values, starting from 0 and leaving the cap at 90 aside. -/
def accumulated (randoms : List ℚ) : ℚ :=
  randoms.foldl (fun progress random => roundDouble (progress + increment random)) 0

/-- The request of lines 33-40. -/
def generateRequest (s : Page) : Request :=
  { url := "/donor-reports/generate/"
    method := "POST"
    body := some s.formData
    headers := [("X-CSRFToken", s.csrfToken), ("X-Requested-With", "XMLHttpRequest")] }

/-- Lines 14-40: the synchronous part of the submit listener. -/
def submitHandler (s : Page) : Page :=
  let s := { s with generateBtn :=
    { classList := Dom.add s.generateBtn.classList "loading"
      innerHTML := "<i class=\"fas fa-spinner fa-spin\"></i> Generating..."
      disabled := true } }
  let s := { s with progressContainer := { s.progressContainer with display := "block" } }
  let s := setTimeout s .addShow 100
  let s := animateProgress s
  { s with requests := s.requests ++ [generateRequest s] }

/-- Lines 42-57: the reaction to the parsed response. -/
def onData (s : Page) (data : Data) : Page :=
  if truthy data.success then
    let s := showAlert s "success" "Report generated successfully!" data.message
    let s := if truthy data.download_url then setTimeout s (.redirect data.download_url) 1000 else s
    setTimeout s .reload 2000
  else
    showAlert s "error" "Error generating report"
      (orElse data.message (.string "An error occurred while generating the report."))

/-- Lines 58-61: the reaction to a rejection. -/
def onError (s : Page) : Page :=
  showAlert s "error" "Network Error"
    (.string "Failed to generate report. Please check your connection and try again.")

/-- Lines 62-76: the `finally` callback schedules the reset. -/
def onFinally (s : Page) : Page :=
  setTimeout s .resetButton 1500

/-- The reactions `.then(...).catch(...).finally(...)` of lines 42-76 for each
way the preceding promise settles. -/
def settle (s : Page) (outcome : FetchOutcome) : Page :=
  match outcome with
  | .rejected => onFinally (onError s)
  | .invalidJson => onFinally (onError s)
  | .parsedNull => onFinally (onError s)
  | .parsed data => onFinally (onData s data)

/-- The body of each timeout callback. -/
def fire (s : Page) (callback : Callback) : Page :=
  match callback with
  | .addShow =>
    { s with progressContainer :=
      { s.progressContainer with classList := Dom.add s.progressContainer.classList "show" } }
  | .redirect url => { s with navigations := s.navigations ++ [.assign url] }
  | .reload => { s with navigations := s.navigations ++ [.reload] }
  | .resetButton =>
    let s := { s with generateBtn :=
      { classList := Dom.remove s.generateBtn.classList "loading"
        innerHTML := "<i class=\"fas fa-magic\"></i> Generate Report"
        disabled := false } }
    let s := { s with progressContainer :=
      { s.progressContainer with classList := Dom.remove s.progressContainer.classList "show" } }
    setTimeout s .hideProgress 300
  | .hideProgress =>
    { s with
      progressContainer := { s.progressContainer with display := "none" }
      progressFillWidth := .percent 0 }
  | .autoDismiss =>
    match s.alertContainer.find? (fun a => Dom.contains a.classList "alert") with
    | none => s
    | some alert =>
      let s := { s with alertContainer := s.alertContainer.map (fun a =>
        if a.id = alert.id then { a with classList := Dom.add a.classList "fade-out" } else a) }
      setTimeout s (.removeAlert alert.id) 300
  | .removeAlert id =>
    { s with alertContainer := s.alertContainer.filter (fun a => a.id != id) }

/-- A pending timeout expires: it leaves the list and its callback runs. -/
def expire (s : Page) (t : Timer) : Page :=
  if t ∈ s.timers then fire { s with timers := s.timers.erase t } t.callback else s

/-- Lines 269-273: Escape removes every element of class `alert`. -/
def escapePressed (s : Page) : Page :=
  { s with alertContainer := s.alertContainer.filter (fun a => !Dom.contains a.classList "alert") }

/-- The request of lines 372-378, for the text `${reportId}` evaluates to. -/
def retryRequest (s : Page) (reportId : String) : Request :=
  { url := "/features/retry-report/" ++ reportId ++ "/"
    method := "POST"
    headers := [("X-CSRFToken", s.csrfToken), ("X-Requested-With", "XMLHttpRequest")]
    body := none }

/-- Lines 364-378: the synchronous part of `retryReport`. -/
def retryReport (s : Page) (reportId : String) : Page :=
  let s := { s with retryBtn :=
    { s.retryBtn with
      innerHTML := "<i class=\"fas fa-spinner fa-spin\"></i> Retrying..."
      disabled := true } }
  { s with requests := s.requests ++ [retryRequest s reportId] }

/-- A form control as `validateField` reads it, with the class list of its parent. -/
structure Field where
  required : Bool
  value : String
  type : String
  name : String
  parentClassList : List String
deriving DecidableEq, Repr

/-- The code points that `String.prototype.trim` strips: white space and line terminators. -/
def isWhitespace (c : Char) : Bool :=
  [9, 10, 11, 12, 13, 32, 160, 5760, 8232, 8233, 8239, 8287, 12288, 65279].contains c.toNat
    || (8192 ≤ c.toNat && c.toNat ≤ 8202)

/-- The method `trim`. -/
def trim (s : String) : String :=
  ⟨((s.data.dropWhile isWhitespace).reverse.dropWhile isWhitespace).reverse⟩

/-- The method `includes`. -/
def includes (s search : String) : Bool :=
  decide (search.data <:+: s.data)

/-- Lines 220-246.  `parseDate` gives the time value of `new Date(text)`, `none`
for an invalid date; `now` is the time value of `new Date()`.  The result is the
returned flag and the field with the class list of its parent updated. -/
def validateField (parseDate : String → Option Int) (now : Int) (field : Field) : Bool × Field :=
  let isValid := true
  let isValid := if field.required && decide (trim field.value = "") then false else isValid
  let isValid :=
    if field.type = "date" ∧ field.value ≠ "" then
      match parseDate field.value with
      | some selectedDate =>
        if includes field.name "date_from" && decide (selectedDate > now) then false else isValid
      | none => isValid
    else isValid
  let formGroup := field.parentClassList
  if isValid then
    (isValid, { field with
      parentClassList := Dom.add (Dom.remove formGroup "has-error") "has-success" })
  else
    (isValid, { field with
      parentClassList := Dom.add (Dom.remove formGroup "has-success") "has-error" })

/-- The response was parsed and its `success` property is truthy. -/
def succeeded : FetchOutcome → Bool
  | .parsed data => truthy data.success
  | _ => false

/-- The calls of `showAlert` made between two states. -/
def newAlertCalls (before after : Page) : List AlertCall :=
  after.alertCalls.drop before.alertCalls.length

/-- The timeouts set between two states. -/
def newTimers (before after : Page) : List Timer :=
  after.timers.drop before.timers.length

/-- A freshly loaded report page: nothing requested, no alert, no timeout. -/
def freshPage : Page :=
  { generateBtn :=
      { classList := ["btn-primary"]
        innerHTML := "<i class=\"fas fa-magic\"></i> Generate Report"
        disabled := false }
    progressContainer := { display := "none", classList := [] }
    progressFillWidth := .unset
    progressText := ""
    alertContainer := []
    nextId := 0
    csrfToken := "token"
    formData := [("report_type", "summary")]
    retryBtn := { classList := ["btn-retry"], innerHTML := "Retry", disabled := false }
    progress := 0
    intervalActive := false
    requests := []
    timers := []
    navigations := []
    alertCalls := [] }

end DonorReport

/-! ## Theorems -/


section PasswordStrength

open StaticfilesMain

theorem strength_ruleChecks (d : PasswordDom) (password : String) :
    (ruleChecks d password).strength = 25 * rulesMet password := by
  unfold ruleChecks checkSpecial checkLowercase checkUppercase checkLength rulesMet
  cases longEnough password <;> cases hasUppercase password <;>
    cases hasLowercase password <;> cases hasSpecial password <;> simp

theorem rulesMet_le_four (password : String) : rulesMet password ≤ 4 := by
  unfold rulesMet
  cases longEnough password <;> cases hasUppercase password <;>
    cases hasLowercase password <;> cases hasSpecial password <;> simp

theorem showStrength_of_rules (d : PasswordDom) (n : Nat) (hn : n ≤ 4) :
    (showStrength d (25 * n)).strengthBar.width = toString (25 * n) ++ "%"
    ∧ (showStrength d (25 * n)).strengthText =
        (if n ≤ 1 then { textContent := "Password strength: Very Weak", className := "text-red-500" }
         else if n = 2 then { textContent := "Password strength: Weak", className := "text-orange-500" }
         else if n = 3 then { textContent := "Password strength: Medium", className := "text-yellow-500" }
         else { textContent := "Password strength: Strong", className := "text-green-500" })
    ∧ (showStrength d (25 * n)).strengthBar.className =
        (if n ≤ 1 then "h-full bg-red-500 transition-all duration-300"
         else if n = 2 then "h-full bg-orange-500 transition-all duration-300"
         else if n = 3 then "h-full bg-yellow-500 transition-all duration-300"
         else "h-full bg-green-500 transition-all duration-300") := by
  interval_cases n <;> simp [showStrength]

theorem checkPasswordStrength_nonempty (d : PasswordDom) (password : String) (h : password ≠ "") :
    checkPasswordStrength d password =
      showStrength (ruleChecks (resetChecks d) password).dom (25 * rulesMet password) := by
  simp [checkPasswordStrength, h, strength_ruleChecks]

/-- C1: for a non-empty password the computed strength is 25 times the number
of rules met (length at least 8, an upper-case letter, a lower-case letter, a
special character), hence one of 0, 25, 50, 75, 100, and the bar width is that
number followed by `%`. -/
theorem strength_is_25_per_rule (d : PasswordDom) (password : String) (h : password ≠ "") :
    computedStrength d password
        = 25 * ((if Dom.jsLength password ≥ 8 then 1 else 0)
            + (if ∃ c ∈ password.data, 'A' ≤ c ∧ c ≤ 'Z' then 1 else 0)
            + (if ∃ c ∈ password.data, 'a' ≤ c ∧ c ≤ 'z' then 1 else 0)
            + (if ∃ c ∈ password.data, c ∈ "!@#$%^&*(),.?\":\x7b\x7d|<>".data then 1 else 0))
    ∧ computedStrength d password ∈ [0, 25, 50, 75, 100]
    ∧ (checkPasswordStrength d password).strengthBar.width
        = toString (computedStrength d password) ++ "%" := by
  have hs : computedStrength d password = 25 * rulesMet password := by
    simp [computedStrength, h, strength_ruleChecks]
  have h4 := rulesMet_le_four password
  refine ⟨?_, ?_, ?_⟩
  · rw [hs]
    simp [rulesMet, longEnough, hasUppercase, hasLowercase, hasSpecial, specialChars]
  · rw [hs]
    generalize rulesMet password = n at h4
    interval_cases n <;> simp
  · rw [hs, checkPasswordStrength_nonempty d password h]
    exact (showStrength_of_rules _ _ h4).1

theorem strength_is_25_per_rule_witness :
    "Abcdefg!" ≠ ""
    ∧ computedStrength ⟨⟨"", ""⟩, ⟨"", ""⟩, none, none, none, none⟩ "Abcdefg!" ∈ [0, 25, 50, 75, 100]
    ∧ (checkPasswordStrength ⟨⟨"", ""⟩, ⟨"", ""⟩, none, none, none, none⟩ "Abcdefg!").strengthBar.width
        = "100%" :=
  ⟨by decide,
   (strength_is_25_per_rule ⟨⟨"", ""⟩, ⟨"", ""⟩, none, none, none, none⟩ "Abcdefg!" (by decide)).2.1,
   by decide⟩

/-- C2: for a non-empty password the text is Strong, Medium, Weak or Very Weak
exactly when four, three, two or at most one of the rules are met, and the
classes of the text and of the bar are green, yellow, orange or red in the same
four cases. -/
theorem strength_text_matches_rules (d : PasswordDom) (password : String) (h : password ≠ "") :
    let after := checkPasswordStrength d password
    ((after.strengthText.textContent = "Password strength: Strong" ↔ rulesMet password = 4)
      ∧ (after.strengthText.textContent = "Password strength: Medium" ↔ rulesMet password = 3)
      ∧ (after.strengthText.textContent = "Password strength: Weak" ↔ rulesMet password = 2)
      ∧ (after.strengthText.textContent = "Password strength: Very Weak" ↔ rulesMet password ≤ 1))
    ∧ ((after.strengthText.className = "text-green-500" ↔ rulesMet password = 4)
      ∧ (after.strengthText.className = "text-yellow-500" ↔ rulesMet password = 3)
      ∧ (after.strengthText.className = "text-orange-500" ↔ rulesMet password = 2)
      ∧ (after.strengthText.className = "text-red-500" ↔ rulesMet password ≤ 1))
    ∧ ((after.strengthBar.className = "h-full bg-green-500 transition-all duration-300"
          ↔ rulesMet password = 4)
      ∧ (after.strengthBar.className = "h-full bg-yellow-500 transition-all duration-300"
          ↔ rulesMet password = 3)
      ∧ (after.strengthBar.className = "h-full bg-orange-500 transition-all duration-300"
          ↔ rulesMet password = 2)
      ∧ (after.strengthBar.className = "h-full bg-red-500 transition-all duration-300"
          ↔ rulesMet password ≤ 1)) := by
  intro after
  have h4 := rulesMet_le_four password
  have hafter : after = showStrength (ruleChecks (resetChecks d) password).dom (25 * rulesMet password) :=
    checkPasswordStrength_nonempty d password h
  obtain ⟨-, ht, hb⟩ := showStrength_of_rules (ruleChecks (resetChecks d) password).dom _ h4
  rw [hafter, ht, hb]
  generalize rulesMet password = n at h4
  interval_cases n <;> simp

theorem strength_text_matches_rules_witness :
    "abc" ≠ ""
    ∧ ((checkPasswordStrength ⟨⟨"", ""⟩, ⟨"", ""⟩, none, none, none, none⟩ "abc").strengthText.textContent
        = "Password strength: Very Weak" ↔ rulesMet "abc" ≤ 1) :=
  ⟨by decide,
   (strength_text_matches_rules ⟨⟨"", ""⟩, ⟨"", ""⟩, none, none, none, none⟩ "abc" (by decide)).1.2.2.2⟩

theorem showStrength_checks (d : PasswordDom) (n : Nat) :
    (showStrength d n).lengthCheck = d.lengthCheck
    ∧ (showStrength d n).uppercaseCheck = d.uppercaseCheck
    ∧ (showStrength d n).lowercaseCheck = d.lowercaseCheck
    ∧ (showStrength d n).specialCheck = d.specialCheck := by
  unfold showStrength
  split_ifs <;> simp

theorem ruleChecks_checks (d : PasswordDom) (password : String) :
    (ruleChecks d password).dom.lengthCheck
        = (if longEnough password then updateCheck d.lengthCheck true else d.lengthCheck)
    ∧ (ruleChecks d password).dom.uppercaseCheck
        = (if hasUppercase password then updateCheck d.uppercaseCheck true else d.uppercaseCheck)
    ∧ (ruleChecks d password).dom.lowercaseCheck
        = (if hasLowercase password then updateCheck d.lowercaseCheck true else d.lowercaseCheck)
    ∧ (ruleChecks d password).dom.specialCheck
        = (if hasSpecial password then updateCheck d.specialCheck true else d.specialCheck) := by
  unfold ruleChecks checkSpecial checkLowercase checkUppercase checkLength
  cases longEnough password <;> cases hasUppercase password <;>
    cases hasLowercase password <;> cases hasSpecial password <;> simp

theorem checkPasswordStrength_checks (d : PasswordDom) (password : String) :
    (checkPasswordStrength d password).lengthCheck
        = (if password ≠ "" ∧ longEnough password = true
            then updateCheck (resetCheck d.lengthCheck) true else resetCheck d.lengthCheck)
    ∧ (checkPasswordStrength d password).uppercaseCheck
        = (if password ≠ "" ∧ hasUppercase password = true
            then updateCheck (resetCheck d.uppercaseCheck) true else resetCheck d.uppercaseCheck)
    ∧ (checkPasswordStrength d password).lowercaseCheck
        = (if password ≠ "" ∧ hasLowercase password = true
            then updateCheck (resetCheck d.lowercaseCheck) true else resetCheck d.lowercaseCheck)
    ∧ (checkPasswordStrength d password).specialCheck
        = (if password ≠ "" ∧ hasSpecial password = true
            then updateCheck (resetCheck d.specialCheck) true else resetCheck d.specialCheck) := by
  by_cases h : password = ""
  · simp [checkPasswordStrength, h, resetChecks]
  · rw [checkPasswordStrength_nonempty d password h]
    obtain ⟨h1, h2, h3, h4⟩ := showStrength_checks (ruleChecks (resetChecks d) password).dom
      (25 * rulesMet password)
    obtain ⟨k1, k2, k3, k4⟩ := ruleChecks_checks (resetChecks d) password
    rw [h1, h2, h3, h4, k1, k2, k3, k4]
    simp [h, resetChecks]

theorem indicator_state (element : Option TextEl) (met : Prop) [Decidable met] (e : TextEl)
    (he : (if met then updateCheck (resetCheck element) true else resetCheck element) = some e) :
    (showsMet e ↔ met) ∧ (showsNotMet e ↔ ¬ met) := by
  cases element with
  | none => split_ifs at he <;> simp [resetCheck, updateCheck] at he
  | some e0 =>
    by_cases hm : met
    · simp only [hm, if_true, resetCheck, updateCheck, Option.some.injEq] at he
      subst he
      simp [showsMet, showsNotMet, hm, checkMark, crossMark]
    · simp only [hm, if_false, resetCheck, Option.some.injEq] at he
      subst he
      simp [showsMet, showsNotMet, hm, checkMark, crossMark]

/-- C12: for the empty password the text is `Password strength: Not set` with
class `text-gray-500`, the bar is `0%` wide with the gray class, and every
indicator that exists is in the reset state; for every password, an indicator
that exists shows the met state after the call exactly when the password is
non-empty and meets the indicator's rule, and the reset state otherwise. -/
theorem empty_password_and_indicators (d : PasswordDom) (password : String) :
    ((checkPasswordStrength d "").strengthText
        = { textContent := "Password strength: Not set", className := "text-gray-500" }
      ∧ (checkPasswordStrength d "").strengthBar
        = { width := "0%", className := "h-full bg-gray-300 transition-all duration-300" }
      ∧ (∀ e, (checkPasswordStrength d "").lengthCheck = some e → showsNotMet e)
      ∧ (∀ e, (checkPasswordStrength d "").uppercaseCheck = some e → showsNotMet e)
      ∧ (∀ e, (checkPasswordStrength d "").lowercaseCheck = some e → showsNotMet e)
      ∧ (∀ e, (checkPasswordStrength d "").specialCheck = some e → showsNotMet e))
    ∧ ((∀ e, (checkPasswordStrength d password).lengthCheck = some e →
          ((showsMet e ↔ password ≠ "" ∧ Dom.jsLength password ≥ 8)
            ∧ (showsNotMet e ↔ ¬ (password ≠ "" ∧ Dom.jsLength password ≥ 8))))
      ∧ (∀ e, (checkPasswordStrength d password).uppercaseCheck = some e →
          ((showsMet e ↔ password ≠ "" ∧ hasUppercase password = true)
            ∧ (showsNotMet e ↔ ¬ (password ≠ "" ∧ hasUppercase password = true))))
      ∧ (∀ e, (checkPasswordStrength d password).lowercaseCheck = some e →
          ((showsMet e ↔ password ≠ "" ∧ hasLowercase password = true)
            ∧ (showsNotMet e ↔ ¬ (password ≠ "" ∧ hasLowercase password = true))))
      ∧ (∀ e, (checkPasswordStrength d password).specialCheck = some e →
          ((showsMet e ↔ password ≠ "" ∧ hasSpecial password = true)
            ∧ (showsNotMet e ↔ ¬ (password ≠ "" ∧ hasSpecial password = true)))))
    ∧ ((checkPasswordStrength d password).lengthCheck.isSome = d.lengthCheck.isSome
      ∧ (checkPasswordStrength d password).uppercaseCheck.isSome = d.uppercaseCheck.isSome
      ∧ (checkPasswordStrength d password).lowercaseCheck.isSome = d.lowercaseCheck.isSome
      ∧ (checkPasswordStrength d password).specialCheck.isSome = d.specialCheck.isSome) := by
  obtain ⟨e1, e2, e3, e4⟩ := checkPasswordStrength_checks d ""
  obtain ⟨h1, h2, h3, h4⟩ := checkPasswordStrength_checks d password
  refine ⟨⟨by simp [checkPasswordStrength], by simp [checkPasswordStrength], ?_, ?_, ?_, ?_⟩,
    ⟨?_, ?_, ?_, ?_⟩, ⟨?_, ?_, ?_, ?_⟩⟩
  · intro e he
    rw [e1] at he
    simpa using (indicator_state _ _ e he).2
  · intro e he
    rw [e2] at he
    simpa using (indicator_state _ _ e he).2
  · intro e he
    rw [e3] at he
    simpa using (indicator_state _ _ e he).2
  · intro e he
    rw [e4] at he
    simpa using (indicator_state _ _ e he).2
  · intro e he
    rw [h1] at he
    simpa [longEnough] using indicator_state _ _ e he
  · intro e he
    rw [h2] at he
    exact indicator_state _ _ e he
  · intro e he
    rw [h3] at he
    exact indicator_state _ _ e he
  · intro e he
    rw [h4] at he
    exact indicator_state _ _ e he
  · rw [h1]; cases d.lengthCheck <;> split_ifs <;> simp [resetCheck, updateCheck]
  · rw [h2]; cases d.uppercaseCheck <;> split_ifs <;> simp [resetCheck, updateCheck]
  · rw [h3]; cases d.lowercaseCheck <;> split_ifs <;> simp [resetCheck, updateCheck]
  · rw [h4]; cases d.specialCheck <;> split_ifs <;> simp [resetCheck, updateCheck]

theorem jsLength_extension (s p t : String) :
    Dom.jsLength p ≤ Dom.jsLength (s ++ p ++ t) := by
  simp only [Dom.jsLength, String.data_append, List.map_append, List.sum_append]
  omega

theorem rulesMet_extension (s p t : String) : rulesMet p ≤ rulesMet (s ++ p ++ t) := by
  have hl : longEnough p = true → longEnough (s ++ p ++ t) = true := by
    have := jsLength_extension s p t
    simp only [longEnough, decide_eq_true_eq]
    omega
  have hu : hasUppercase p = true → hasUppercase (s ++ p ++ t) = true := by
    simp only [hasUppercase, String.data_append, List.any_append, Bool.or_eq_true]
    intro h
    exact Or.inl (Or.inr h)
  have hw : hasLowercase p = true → hasLowercase (s ++ p ++ t) = true := by
    simp only [hasLowercase, String.data_append, List.any_append, Bool.or_eq_true]
    intro h
    exact Or.inl (Or.inr h)
  have hp : hasSpecial p = true → hasSpecial (s ++ p ++ t) = true := by
    simp only [hasSpecial, String.data_append, List.any_append, Bool.or_eq_true]
    intro h
    exact Or.inl (Or.inr h)
  have step : ∀ a b : Bool, (a = true → b = true) →
      (if a = true then 1 else 0 : Nat) ≤ (if b = true then 1 else 0) := by
    intro a b hab
    cases a <;> cases b <;> simp at hab ⊢
  unfold rulesMet
  exact Nat.add_le_add (Nat.add_le_add (Nat.add_le_add (step _ _ hl) (step _ _ hu))
    (step _ _ hw)) (step _ _ hp)

theorem labelLevel_after (d : PasswordDom) (password : String) :
    labelLevel (checkPasswordStrength d password).strengthText.textContent
      = if password = "" then 0 else max 1 (rulesMet password) := by
  by_cases h : password = ""
  · simp [h, checkPasswordStrength, labelLevel]
  · have h4 := rulesMet_le_four password
    rw [checkPasswordStrength_nonempty d password h,
      (showStrength_of_rules (ruleChecks (resetChecks d) password).dom _ h4).2.1]
    simp only [h, if_false]
    generalize rulesMet password = n at h4
    interval_cases n <;> simp [labelLevel]

/-- C15: the strength computed for `s ++ p ++ t` is at least the strength
computed for `p` (0 for the empty password), and the label shown for
`s ++ p ++ t` is not at a weaker level than the label shown for `p`. -/
theorem strength_monotone_under_extension (d : PasswordDom) (p s t : String) :
    computedStrength d p ≤ computedStrength d (s ++ p ++ t)
    ∧ labelLevel (checkPasswordStrength d p).strengthText.textContent
        ≤ labelLevel (checkPasswordStrength d (s ++ p ++ t)).strengthText.textContent := by
  have hm := rulesMet_extension s p t
  by_cases h : p = ""
  · constructor
    · simp [computedStrength, h]
    · rw [labelLevel_after d p]
      simp [h]
  · have hne : s ++ p ++ t ≠ "" := by
      intro hc
      apply h
      have := congrArg String.data hc
      simp only [String.data_append, List.append_eq_nil] at this
      exact String.ext this.1.2
    constructor
    · simp only [computedStrength, h, hne, if_false, strength_ruleChecks]
      omega
    · rw [labelLevel_after d p, labelLevel_after d (s ++ p ++ t)]
      simp only [h, hne, if_false]
      omega

end PasswordStrength

section MobileMenu

open Menu

theorem contains_add (classList : List String) (token : String) :
    Dom.contains (Dom.add classList token) token = true := by
  unfold Dom.add Dom.contains
  split_ifs with h
  · exact h
  · simp

theorem contains_remove (classList : List String) (token : String) :
    Dom.contains (Dom.remove classList token) token = false := by
  simp [Dom.remove, Dom.contains, List.contains_eq_any_beq, List.any_filter]

theorem contains_add_of_ne (classList : List String) (token other : String) (h : other ≠ token) :
    Dom.contains (Dom.add classList token) other = Dom.contains classList other := by
  unfold Dom.add Dom.contains
  split_ifs
  · rfl
  · simp [h]

theorem contains_remove_of_ne (classList : List String) (token other : String)
    (h : other ≠ token) :
    Dom.contains (Dom.remove classList token) other = Dom.contains classList other := by
  induction classList with
  | nil => simp [Dom.remove, Dom.contains]
  | cons c cs ih =>
    simp only [Dom.remove, Dom.contains, List.contains_eq_any_beq] at ih ⊢
    by_cases hc : c = token
    · subst hc
      simp [List.filter_cons, ih, h]
    · simp [List.filter_cons, hc, ih]

theorem closeMobileMenu_closed (s : State) :
    isHidden (closeMobileMenu s) = true
    ∧ (closeMobileMenu s).bodyOverflow = ""
    ∧ Dom.contains (closeMobileMenu s).bodyClassList "menu-open" = false := by
  simp [closeMobileMenu, isHidden, contains_add, contains_remove]

theorem openMenu_open (s : State) :
    isHidden (openMenu s) = false
    ∧ (openMenu s).bodyOverflow = "hidden"
    ∧ Dom.contains (openMenu s).bodyClassList "menu-open" = true := by
  simp [openMenu, isHidden, contains_add, contains_remove]

theorem static_toggle_eq (s : State) :
    StaticMain.toggleMobileMenu s = StaticfilesMain.toggleMobileMenu s := by
  simp [StaticMain.toggleMobileMenu, StaticfilesMain.toggleMobileMenu, closeMobileMenu]

/-- C3: in both files `toggleMobileMenu` flips the presence of the class
`hidden` on the menu, and two toggles starting from a hidden menu end with the
menu hidden, body overflow `''` and the body class `menu-open` absent. -/
theorem toggle_flips_visibility (s : State) :
    (isHidden (StaticMain.toggleMobileMenu s) = !isHidden s)
    ∧ (isHidden (StaticfilesMain.toggleMobileMenu s) = !isHidden s)
    ∧ (isHidden s = true →
        isHidden (StaticMain.toggleMobileMenu (StaticMain.toggleMobileMenu s)) = true
        ∧ (StaticMain.toggleMobileMenu (StaticMain.toggleMobileMenu s)).bodyOverflow = ""
        ∧ Dom.contains
            (StaticMain.toggleMobileMenu (StaticMain.toggleMobileMenu s)).bodyClassList
            "menu-open" = false)
    ∧ (isHidden s = true →
        isHidden (StaticfilesMain.toggleMobileMenu (StaticfilesMain.toggleMobileMenu s)) = true
        ∧ (StaticfilesMain.toggleMobileMenu (StaticfilesMain.toggleMobileMenu s)).bodyOverflow = ""
        ∧ Dom.contains
            (StaticfilesMain.toggleMobileMenu (StaticfilesMain.toggleMobileMenu s)).bodyClassList
            "menu-open" = false) := by
  have flip : isHidden (StaticfilesMain.toggleMobileMenu s) = !isHidden s := by
    unfold StaticfilesMain.toggleMobileMenu
    cases h : isHidden s
    · simp [(closeMobileMenu_closed s).1]
    · simp [(openMenu_open s).1]
  have twice : isHidden s = true →
      StaticfilesMain.toggleMobileMenu (StaticfilesMain.toggleMobileMenu s)
        = closeMobileMenu (openMenu s) := by
    intro h
    have h1 : StaticfilesMain.toggleMobileMenu s = openMenu s := by
      simp [StaticfilesMain.toggleMobileMenu, h]
    rw [h1]
    simp [StaticfilesMain.toggleMobileMenu, (openMenu_open s).1]
  refine ⟨?_, flip, ?_, ?_⟩
  · rw [static_toggle_eq]; exact flip
  · intro h
    rw [static_toggle_eq, static_toggle_eq, twice h]
    exact closeMobileMenu_closed _
  · intro h
    rw [twice h]
    exact closeMobileMenu_closed _

/-- C4: the keydown listener, the same in both files, closes an open menu on
`Escape` (the menu ends hidden, body overflow `''`, `menu-open` removed) and
leaves the whole state unchanged for any other key or when the menu is
already hidden. -/
theorem escape_closes_menu (s : State) (key : String) :
    (key = "Escape" ∧ isHidden s = false →
        isHidden (keydownListener s key) = true
        ∧ (keydownListener s key).bodyOverflow = ""
        ∧ Dom.contains (keydownListener s key).bodyClassList "menu-open" = false)
    ∧ (key ≠ "Escape" ∨ isHidden s = true → keydownListener s key = s) := by
  constructor
  · rintro ⟨hk, hh⟩
    have : keydownListener s key = closeMobileMenu s := by
      simp [keydownListener, hk, hh]
    rw [this]
    exact closeMobileMenu_closed s
  · rintro (hk | hh)
    · simp [keydownListener, hk]
    · simp [keydownListener, hh]

/-- C5, as stated, fails for `src/staticfiles/js/main.js`: with the menu open,
a click outside the menu and the button leaves it open. -/
theorem staticfiles_outside_click_keeps_menu_open :
    isHidden openState = false
    ∧ isHidden (StaticfilesMain.click openState .outside) = false := by
  decide

/-- C5, amended: in `src/static/js/main.js` a click outside the menu and the
button closes an open menu, and the document listener leaves the state
unchanged when the menu is hidden; in `src/staticfiles/js/main.js` a click on
the menu element itself closes an open menu, and a click outside the menu and
the button leaves the state unchanged, open or hidden. -/
theorem outside_click_closes_menu (s : State) :
    (isHidden s = false → isHidden (StaticMain.click s .outside) = true)
    ∧ (isHidden s = true →
        StaticMain.click s .outside = s
        ∧ ∀ inMenu inButton, StaticMain.documentClickListener s inMenu inButton = s)
    ∧ (isHidden s = false → isHidden (StaticfilesMain.click s .menuItself) = true)
    ∧ StaticfilesMain.click s .outside = s := by
  refine ⟨?_, ?_, ?_, rfl⟩
  · intro h
    have : StaticMain.click s .outside = closeMobileMenu s := by
      simp [StaticMain.click, StaticMain.documentClickListener, h]
    rw [this]
    exact (closeMobileMenu_closed s).1
  · intro h
    constructor
    · simp [StaticMain.click, StaticMain.documentClickListener, h]
    · intro inMenu inButton
      simp [StaticMain.documentClickListener, h]
  · intro _
    exact (closeMobileMenu_closed s).1

/-- C11 fails on the code of both files: after `initMobileMenu`, a click on the
button opens the menu, yet the button in the document keeps
`aria-expanded="false"` and the hamburger icon; the attribute and the icon are
changed on the element that `replaceChild` took out of the document. -/
theorem click_changes_detached_button :
    (initMobileMenu closedPage).map (fun s => isHidden (StaticfilesMain.click s .button))
        = some false
    ∧ (initMobileMenu closedPage).map (fun s => (StaticfilesMain.click s .button).newButton)
        = some { ariaExpanded := some "false", icon := some hamburgerPath }
    ∧ (initMobileMenu closedPage).map (fun s => (StaticfilesMain.click s .button).mobileMenuButton)
        = some { ariaExpanded := some "true", icon := some xPath }
    ∧ (initMobileMenu closedPage).map (fun s => isHidden (StaticMain.click s .button))
        = some false
    ∧ (initMobileMenu closedPage).map (fun s => (StaticMain.click s .button).newButton)
        = some { ariaExpanded := some "false", icon := some hamburgerPath } := by
  decide

end MobileMenu

section ReportForm

open DonorReport

theorem showAlert_calls (s : Page) (type title : String) (message : JsValue) :
    (showAlert s type title message).alertCalls
      = s.alertCalls ++ [{ type := type, title := title, message := message }] := by
  unfold showAlert
  split_ifs <;> simp [setTimeout]

theorem showAlert_container (s : Page) (type title : String) (message : JsValue) :
    (showAlert s type title message).alertContainer
      = [{ id := s.nextId
           classList := ["alert", "alert-" ++ type, "alert-dismissible", "fade-in"]
           icon := if type = "success" then "fas fa-check-circle" else "fas fa-exclamation-triangle"
           title := title
           message := message }] := by
  unfold showAlert
  split_ifs <;> simp [setTimeout]

theorem showAlert_timers (s : Page) (type title : String) (message : JsValue) :
    (showAlert s type title message).timers
      = s.timers ++ (if type = "success" then [{ delay := 5000, callback := .autoDismiss }] else []) := by
  unfold showAlert
  split_ifs <;> simp [setTimeout]

theorem showAlert_frame (s : Page) (type title : String) (message : JsValue) :
    (showAlert s type title message).requests = s.requests
    ∧ (showAlert s type title message).generateBtn = s.generateBtn
    ∧ (showAlert s type title message).progressContainer = s.progressContainer
    ∧ (showAlert s type title message).progressFillWidth = s.progressFillWidth := by
  unfold showAlert
  split_ifs <;> simp [setTimeout]

theorem settle_calls (s : Page) (outcome : FetchOutcome) :
    newAlertCalls s (settle s outcome) =
      match outcome with
      | .parsed data =>
        if truthy data.success then
          [{ type := "success", title := "Report generated successfully!", message := data.message }]
        else
          [{ type := "error", title := "Error generating report"
             message := orElse data.message
               (.string "An error occurred while generating the report.") }]
      | _ =>
        [{ type := "error", title := "Network Error"
           message := .string
             "Failed to generate report. Please check your connection and try again." }] := by
  cases outcome with
  | parsed data =>
    by_cases h : truthy data.success = true
    · by_cases hd : truthy data.download_url = true <;>
        simp [newAlertCalls, settle, onFinally, onData, setTimeout, showAlert_calls, h, hd]
    · simp [newAlertCalls, settle, onFinally, onData, setTimeout, showAlert_calls, h]
  | _ => simp [newAlertCalls, settle, onFinally, onError, setTimeout, showAlert_calls]

theorem succeeded_iff (outcome : FetchOutcome) :
    succeeded outcome = true ↔ ∃ data, outcome = .parsed data ∧ truthy data.success = true := by
  cases outcome <;> simp [succeeded]

theorem settle_container (s : Page) (outcome : FetchOutcome) :
    ∃ a, (settle s outcome).alertContainer = [a]
      ∧ a.classList = ["alert",
          (if succeeded outcome = true then "alert-success" else "alert-error"),
          "alert-dismissible", "fade-in"] := by
  cases outcome with
  | parsed data =>
    by_cases h : truthy data.success = true
    · by_cases hd : truthy data.download_url = true <;>
        simp [settle, onFinally, onData, setTimeout, showAlert_container, h, hd, succeeded]
    · simp [settle, onFinally, onData, setTimeout, showAlert_container, h, succeeded]
  | _ => simp [settle, onFinally, onError, setTimeout, showAlert_container, succeeded]

/-- C6: in reaction to the settled request exactly one call of `showAlert` is
made.  A parsed response with a falsy `success` gives
`showAlert('error', 'Error generating report', m)` with `m` the message when
truthy and the default text otherwise; a rejected fetch or a body that is not
JSON gives `showAlert('error', 'Network Error', ...)`; the call has type
`success` exactly when the parsed response has a truthy `success`, and in
every other case the call and the alert put on the page have type `error`. -/
theorem failures_surface_as_error (s : Page) (outcome : FetchOutcome) :
    (∀ data, outcome = .parsed data → truthy data.success = false →
        newAlertCalls s (settle s outcome) =
          [{ type := "error", title := "Error generating report"
             message := if truthy data.message = true then data.message
               else .string "An error occurred while generating the report." }])
    ∧ (outcome = .rejected ∨ outcome = .invalidJson →
        newAlertCalls s (settle s outcome) =
          [{ type := "error", title := "Network Error"
             message := .string
               "Failed to generate report. Please check your connection and try again." }])
    ∧ ((∃ c ∈ newAlertCalls s (settle s outcome), c.type = "success")
        ↔ ∃ data, outcome = .parsed data ∧ truthy data.success = true)
    ∧ ((¬ ∃ data, outcome = .parsed data ∧ truthy data.success = true) →
        (∃ c, newAlertCalls s (settle s outcome) = [c] ∧ c.type = "error")
        ∧ ∃ a, (settle s outcome).alertContainer = [a]
            ∧ Dom.contains a.classList "alert-error" = true
            ∧ Dom.contains a.classList "alert-success" = false) := by
  have hc := settle_calls s outcome
  refine ⟨?_, ?_, ?_, ?_⟩
  · intro data ho hf
    subst ho
    simpa [hf, orElse] using hc
  · rintro (ho | ho) <;> subst ho <;> simpa using hc
  · cases outcome with
    | parsed data =>
      by_cases h : truthy data.success = true <;> simp [hc, h]
    | _ => simp [hc]
  · intro hno
    constructor
    · cases outcome with
      | parsed data =>
        have h : ¬ truthy data.success = true := fun h => hno ⟨data, rfl, h⟩
        simp [hc, h]
      | _ => simp [hc]
    · obtain ⟨a, ha, hcl⟩ := settle_container s outcome
      refine ⟨a, ha, ?_⟩
      have hs : ¬ succeeded outcome = true := fun h => hno ((succeeded_iff outcome).1 h)
      rw [hcl, if_neg hs]
      decide

theorem settle_timers (s : Page) (outcome : FetchOutcome) :
    newTimers s (settle s outcome) =
      (match outcome with
        | .parsed data =>
          if truthy data.success then
            [{ delay := 5000, callback := .autoDismiss }]
              ++ (if truthy data.download_url then
                    [{ delay := 1000, callback := .redirect data.download_url }] else [])
              ++ [{ delay := 2000, callback := .reload }]
          else []
        | _ => [])
      ++ [{ delay := 1500, callback := .resetButton }] := by
  cases outcome with
  | parsed data =>
    by_cases h : truthy data.success = true
    · by_cases hd : truthy data.download_url = true <;>
        simp [newTimers, settle, onFinally, onData, setTimeout, showAlert_timers, h, hd]
    · simp [newTimers, settle, onFinally, onData, setTimeout, showAlert_timers, h]
  | _ => simp [newTimers, settle, onFinally, onError, setTimeout, showAlert_timers]

theorem settle_frame (s : Page) (outcome : FetchOutcome) :
    (settle s outcome).requests = s.requests
    ∧ (settle s outcome).generateBtn = s.generateBtn
    ∧ (settle s outcome).progressContainer = s.progressContainer
    ∧ (settle s outcome).progressFillWidth = s.progressFillWidth := by
  cases outcome with
  | parsed data =>
    by_cases h : truthy data.success = true
    · by_cases hd : truthy data.download_url = true <;>
        simp [settle, onFinally, onData, setTimeout, showAlert_frame, h, hd]
    · simp [settle, onFinally, onData, setTimeout, showAlert_frame, h]
  | _ => simp [settle, onFinally, onError, setTimeout, showAlert_frame]

theorem fire_requests (s : Page) (callback : Callback) :
    (fire s callback).requests = s.requests := by
  cases callback <;> simp only [fire, setTimeout]
  case autoDismiss => split <;> rfl

/-- C7, as stated, fails: on a fresh page the request of `retryReport` and the
request of the submit handler differ in URL and in body. -/
theorem retry_request_differs_from_submit :
    (submitHandler freshPage).requests
      = [{ url := "/donor-reports/generate/", method := "POST"
           headers := [("X-CSRFToken", "token"), ("X-Requested-With", "XMLHttpRequest")]
           body := some [("report_type", "summary")] }]
    ∧ (retryReport freshPage "7").requests
      = [{ url := "/features/retry-report/7/", method := "POST"
           headers := [("X-CSRFToken", "token"), ("X-Requested-With", "XMLHttpRequest")]
           body := none }]
    ∧ (retryReport freshPage "7").requests ≠ (submitHandler freshPage).requests := by
  decide

/-- C7, amended: the request of `retryReport(reportId)` has the method and the
headers of the request of the submit handler; its URL is
`/features/retry-report/<reportId>/`, which differs from
`/donor-reports/generate/`, and it has no body, while the submit request
carries the form data. -/
theorem retry_request_shares_method_and_headers (s : Page) (reportId : String) :
    ∃ g r, (submitHandler s).requests = s.requests ++ [g]
      ∧ (retryReport s reportId).requests = s.requests ++ [r]
      ∧ r.method = g.method
      ∧ r.headers = g.headers
      ∧ g.url = "/donor-reports/generate/"
      ∧ r.url = "/features/retry-report/" ++ reportId ++ "/"
      ∧ r.url ≠ g.url
      ∧ g.body = some s.formData
      ∧ r.body = none := by
  refine ⟨_, _, rfl, rfl, rfl, rfl, rfl, rfl, ?_, rfl, rfl⟩
  intro h
  have h2 := congrArg (fun u => u.data.drop 1 |>.head?) h
  simp [retryRequest, retryReport, generateRequest, submitHandler, animateProgress, setTimeout,
    String.data_append] at h2

/-- C8: the submit handler issues exactly one request, a POST to
`/donor-reports/generate/` whose body is the form data and whose `X-CSRFToken`
header is the value of the `csrfmiddlewaretoken` element; its reactions and
timeouts issue none; `retryReport` issues exactly one POST, to
`/features/retry-report/<reportId>/`, with the same `X-CSRFToken` header. -/
theorem one_post_per_action (s : Page) (reportId : String) (outcome : FetchOutcome)
    (callback : Callback) :
    (submitHandler s).requests = s.requests ++
        [{ url := "/donor-reports/generate/", method := "POST"
           headers := [("X-CSRFToken", s.csrfToken), ("X-Requested-With", "XMLHttpRequest")]
           body := some s.formData }]
    ∧ (settle s outcome).requests = s.requests
    ∧ (fire s callback).requests = s.requests
    ∧ (retryReport s reportId).requests = s.requests ++
        [{ url := "/features/retry-report/" ++ reportId ++ "/", method := "POST"
           headers := [("X-CSRFToken", s.csrfToken), ("X-Requested-With", "XMLHttpRequest")]
           body := none }] :=
  ⟨rfl, (settle_frame s outcome).1, fire_requests s callback, rfl⟩

theorem reset_count (outcome : FetchOutcome) (s : Page) :
    ((newTimers s (settle s outcome)).filter (fun t => t.callback = .resetButton)).length = 1 := by
  rw [settle_timers]
  cases outcome with
  | parsed data =>
    by_cases h : truthy data.success = true
    · by_cases hd : truthy data.download_url = true <;> simp [h, hd, List.filter_cons]
    · simp [h, List.filter_cons]
  | _ => simp [List.filter_cons]

/-- C10: the handler puts the button into the loading state (class `loading`,
disabled); for every outcome the reactions leave the button as it is and set
the reset timeout exactly once (1500 ms); the reset step leaves the button
enabled, without class `loading`, labelled `Generate Report`, the progress
container without class `show`, and sets one further timeout (300 ms) whose
callback sets the container's display to `none` and the fill width to `0%`. -/
theorem submit_flow_resets_once (s : Page) (outcome : FetchOutcome) :
    (Dom.contains (submitHandler s).generateBtn.classList "loading" = true
      ∧ (submitHandler s).generateBtn.disabled = true)
    ∧ ((settle s outcome).generateBtn = s.generateBtn
      ∧ ((newTimers s (settle s outcome)).filter
            (fun t => t.callback = .resetButton)).length = 1
      ∧ { delay := 1500, callback := .resetButton } ∈ newTimers s (settle s outcome))
    ∧ ((fire s .resetButton).generateBtn.disabled = false
      ∧ Dom.contains (fire s .resetButton).generateBtn.classList "loading" = false
      ∧ (fire s .resetButton).generateBtn.innerHTML
          = "<i class=\"fas fa-magic\"></i> Generate Report"
      ∧ Dom.contains (fire s .resetButton).progressContainer.classList "show" = false
      ∧ newTimers s (fire s .resetButton) = [{ delay := 300, callback := .hideProgress }])
    ∧ ((fire s .hideProgress).progressContainer.display = "none"
      ∧ (fire s .hideProgress).progressFillWidth = .percent 0
      ∧ (fire s .hideProgress).generateBtn = s.generateBtn
      ∧ (fire s .hideProgress).progressContainer.classList = s.progressContainer.classList
      ∧ newTimers s (fire s .hideProgress) = []) := by
  refine ⟨⟨?_, rfl⟩, ⟨(settle_frame s outcome).2.1, reset_count outcome s, ?_⟩,
    ⟨rfl, ?_, rfl, ?_, ?_⟩, ⟨rfl, rfl, rfl, rfl, ?_⟩⟩
  · simp [submitHandler, animateProgress, setTimeout, contains_add]
  · rw [settle_timers]
    simp
  · simp [fire, setTimeout, contains_remove]
  · simp [fire, setTimeout, contains_remove]
  · simp [fire, setTimeout, newTimers]
  · simp [fire, newTimers]

end ReportForm

section ProgressAnimation

open DonorReport

theorem roundHalfEven_int (n : ℤ) : roundHalfEven (n : ℚ) = n := by
  simp [roundHalfEven]

theorem roundHalfEven_bounds (x : ℚ) : ⌊x⌋ ≤ roundHalfEven x ∧ roundHalfEven x ≤ ⌊x⌋ + 1 := by
  unfold roundHalfEven
  split_ifs <;> constructor <;> omega

theorem roundHalfEven_mono {x y : ℚ} (h : x ≤ y) : roundHalfEven x ≤ roundHalfEven y := by
  have hf : ⌊x⌋ ≤ ⌊y⌋ := Int.floor_mono h
  rcases lt_or_eq_of_le hf with hlt | heq
  · have := (roundHalfEven_bounds x).2
    have := (roundHalfEven_bounds y).1
    omega
  · have hd : x - ⌊x⌋ ≤ y - ⌊y⌋ := by rw [heq]; linarith
    unfold roundHalfEven
    rw [heq] at hd ⊢
    split_ifs <;> first | omega | (exfalso; linarith)

theorem roundHalfEven_le_int {x : ℚ} {n : ℤ} (h : x ≤ n) : roundHalfEven x ≤ n := by
  have := roundHalfEven_mono h
  rwa [roundHalfEven_int] at this

theorem int_le_roundHalfEven {x : ℚ} {n : ℤ} (h : (n : ℚ) ≤ x) : n ≤ roundHalfEven x := by
  have := roundHalfEven_mono h
  rwa [roundHalfEven_int] at this

theorem zpow_split (a k : ℤ) (n : ℕ) (h : a = n + k) :
    (2 : ℚ) ^ a = ((2 ^ n : ℤ) : ℚ) * 2 ^ k := by
  subst h
  rw [zpow_add₀ (by norm_num : (2:ℚ) ≠ 0), zpow_natCast]
  push_cast
  rfl

theorem roundDouble_zero : roundDouble 0 = 0 := by
  simp [roundDouble, roundHalfEven]

/-- A multiple of a power of two that is not finer than the spacing of the
doubles around it is a double. -/
theorem roundDouble_fix (q : ℚ) (m j : ℤ) (hq : q = m * 2 ^ j) (hj : ulpExponent q ≤ j) :
    roundDouble q = q := by
  unfold roundDouble
  have h2 : (2 : ℚ) ^ ulpExponent q ≠ 0 := zpow_ne_zero _ (by norm_num)
  obtain ⟨n, hn⟩ := Int.eq_ofNat_of_zero_le (sub_nonneg.2 hj)
  have hdiv : q / 2 ^ ulpExponent q = ((m * 2 ^ n : ℤ) : ℚ) := by
    rw [div_eq_iff h2]
    conv_lhs => rw [hq, zpow_split j (ulpExponent q) n (by omega)]
    push_cast
    ring
  rw [hdiv, roundHalfEven_int, ← hdiv]
  field_simp

theorem ulpExponent_le {q : ℚ} {j : ℤ} (hq : 0 < q) (hlt : q < 2 ^ (j + 53)) (hj : -1074 ≤ j) :
    ulpExponent q ≤ j := by
  unfold ulpExponent
  rw [abs_of_pos hq]
  have := (Int.lt_zpow_iff_log_lt (b := 2) (by norm_num) hq).1 (by exact_mod_cast hlt)
  omega

theorem roundDouble_of_scaled {q : ℚ} (m j : ℤ) (hq : q = m * 2 ^ j) (hpos : 0 < q)
    (hlt : q < 2 ^ (j + 53)) (hj : -1074 ≤ j) : roundDouble q = q :=
  roundDouble_fix q m j hq (ulpExponent_le hpos hlt hj)

theorem roundDouble_nonneg {q : ℚ} (h : 0 ≤ q) : 0 ≤ roundDouble q := by
  unfold roundDouble
  have h2 : (0 : ℚ) < 2 ^ ulpExponent q := zpow_pos (by norm_num) _
  have : (0 : ℤ) ≤ roundHalfEven (q / 2 ^ ulpExponent q) :=
    int_le_roundHalfEven (by simpa using div_nonneg h h2.le)
  have : (0 : ℚ) ≤ (roundHalfEven (q / 2 ^ ulpExponent q) : ℚ) := by exact_mod_cast this
  positivity

/-- Rounding to the nearest double is monotone. -/
theorem roundDouble_mono {x y : ℚ} (hx : 0 ≤ x) (hxy : x ≤ y) : roundDouble x ≤ roundDouble y := by
  rcases eq_or_lt_of_le hx with h0 | hpos
  · rw [← h0, roundDouble_zero]
    exact roundDouble_nonneg (hx.trans hxy)
  have hypos : 0 < y := lt_of_lt_of_le hpos hxy
  have hlog : Int.log 2 x ≤ Int.log 2 y := Int.log_mono_right hpos hxy
  have hk : ulpExponent x ≤ ulpExponent y := by
    unfold ulpExponent
    rw [abs_of_pos hpos, abs_of_pos hypos]
    omega
  have h2x : (0 : ℚ) < 2 ^ ulpExponent x := zpow_pos (by norm_num) _
  have h2y : (0 : ℚ) < 2 ^ ulpExponent y := zpow_pos (by norm_num) _
  rcases eq_or_lt_of_le hk with heq | hlt
  · unfold roundDouble
    rw [heq]
    have : roundHalfEven (x / 2 ^ ulpExponent y) ≤ roundHalfEven (y / 2 ^ ulpExponent y) :=
      roundHalfEven_mono (div_le_div_of_nonneg_right hxy h2y.le)
    have : (roundHalfEven (x / 2 ^ ulpExponent y) : ℚ) ≤ roundHalfEven (y / 2 ^ ulpExponent y) := by
      exact_mod_cast this
    exact mul_le_mul_of_nonneg_right this h2y.le
  · have hky : ulpExponent y = Int.log 2 y - 52 := by
      have h1 : -1074 ≤ ulpExponent x := by unfold ulpExponent; omega
      unfold ulpExponent at hlt ⊢
      rw [abs_of_pos hypos] at hlt ⊢
      omega
    have hkx : Int.log 2 x - 52 ≤ ulpExponent x := by
      unfold ulpExponent
      rw [abs_of_pos hpos]
      omega
    have hex : Int.log 2 x + 1 ≤ Int.log 2 y := by omega
    have hxlt : x < 2 ^ (Int.log 2 x + 1) := by
      have := Int.lt_zpow_succ_log_self (b := 2) (by norm_num) x
      exact_mod_cast this
    have hyge : (2 : ℚ) ^ Int.log 2 y ≤ y := by
      have := Int.zpow_log_le_self (b := 2) (by norm_num) hypos
      exact_mod_cast this
    have hxle : x ≤ 2 ^ Int.log 2 y :=
      hxlt.le.trans (zpow_le_zpow_right₀ (by norm_num) hex)
    obtain ⟨n, hn⟩ := Int.eq_ofNat_of_zero_le (show 0 ≤ Int.log 2 y - ulpExponent x by omega)
    have hpow : (2 : ℚ) ^ Int.log 2 y = ((2 ^ n : ℤ) : ℚ) * 2 ^ ulpExponent x :=
      zpow_split _ _ n (by omega)
    have hupper : roundDouble x ≤ 2 ^ Int.log 2 y := by
      unfold roundDouble
      rw [hpow]
      have : x / 2 ^ ulpExponent x ≤ ((2 ^ n : ℤ) : ℚ) := by
        rw [div_le_iff₀ h2x, ← hpow]
        exact hxle
      have := roundHalfEven_le_int this
      have : (roundHalfEven (x / 2 ^ ulpExponent x) : ℚ) ≤ ((2 ^ n : ℤ) : ℚ) := by
        exact_mod_cast this
      exact mul_le_mul_of_nonneg_right this h2x.le
    have hpow2 : (2 : ℚ) ^ Int.log 2 y = ((2 ^ 52 : ℤ) : ℚ) * 2 ^ ulpExponent y :=
      zpow_split _ _ 52 (by omega)
    have hlower : 2 ^ Int.log 2 y ≤ roundDouble y := by
      unfold roundDouble
      rw [hpow2]
      have : ((2 ^ 52 : ℤ) : ℚ) ≤ y / 2 ^ ulpExponent y := by
        rw [le_div_iff₀ h2y, ← hpow2]
        exact hyge
      have := int_le_roundHalfEven this
      have : ((2 ^ 52 : ℤ) : ℚ) ≤ (roundHalfEven (y / 2 ^ ulpExponent y) : ℚ) := by
        exact_mod_cast this
      exact mul_le_mul_of_nonneg_right this h2y.le
    exact hupper.trans hlower

/-- The result of rounding is a double: rounding it again changes nothing. -/
theorem roundDouble_idem {q : ℚ} (hq : 0 ≤ q) : roundDouble (roundDouble q) = roundDouble q := by
  rcases eq_or_lt_of_le hq with h0 | hpos
  · rw [← h0, roundDouble_zero, roundDouble_zero]
  have hnn := roundDouble_nonneg hq
  rcases eq_or_lt_of_le hnn with hz | hvpos
  · rw [← hz, roundDouble_zero]
  have h2 : (0 : ℚ) < 2 ^ ulpExponent q := zpow_pos (by norm_num) _
  have hk1 : -1074 ≤ ulpExponent q := by unfold ulpExponent; omega
  have hk2 : Int.log 2 q - 52 ≤ ulpExponent q := by
    unfold ulpExponent
    rw [abs_of_pos hpos]
    omega
  have hqlt : q < 2 ^ (Int.log 2 q + 1) := by
    have := Int.lt_zpow_succ_log_self (b := 2) (by norm_num) q
    exact_mod_cast this
  have hqle : q ≤ 2 ^ (ulpExponent q + 53) :=
    hqlt.le.trans (zpow_le_zpow_right₀ (by norm_num) (by omega))
  have hsplit : (2 : ℚ) ^ (ulpExponent q + 53) = ((2 ^ 53 : ℤ) : ℚ) * 2 ^ ulpExponent q :=
    zpow_split _ _ 53 (by omega)
  have hn : roundHalfEven (q / 2 ^ ulpExponent q) ≤ 2 ^ 53 := by
    apply roundHalfEven_le_int
    rw [div_le_iff₀ h2, ← hsplit]
    exact hqle
  have hv : roundDouble q = roundHalfEven (q / 2 ^ ulpExponent q) * 2 ^ ulpExponent q := rfl
  rcases eq_or_lt_of_le hn with heq | hlt
  · have hv2 : roundDouble q = ((2 ^ 52 : ℤ) : ℚ) * 2 ^ (ulpExponent q + 1) := by
      rw [hv, heq, zpow_add₀ (by norm_num : (2:ℚ) ≠ 0)]
      push_cast
      ring
    refine roundDouble_of_scaled (2 ^ 52) (ulpExponent q + 1) hv2 hvpos ?_ (by omega)
    rw [hv2, zpow_split (ulpExponent q + 1 + 53) (ulpExponent q + 1) 53 (by omega)]
    have h3 : (0 : ℚ) < 2 ^ (ulpExponent q + 1) := zpow_pos (by norm_num) _
    exact mul_lt_mul_of_pos_right (by norm_num) h3
  · refine roundDouble_of_scaled _ (ulpExponent q) hv hvpos ?_ hk1
    rw [hv, hsplit]
    have : (roundHalfEven (q / 2 ^ ulpExponent q) : ℚ) < ((2 ^ 53 : ℤ) : ℚ) := by
      exact_mod_cast hlt
    exact mul_lt_mul_of_pos_right this h2

theorem roundDouble_ninety : roundDouble 90 = 90 := by
  refine roundDouble_of_scaled 90 0 (by norm_num) (by norm_num) ?_ (by norm_num)
  norm_num

theorem increment_nonneg {r : ℚ} (hr : 0 ≤ r) : 0 ≤ increment r :=
  roundDouble_nonneg (mul_nonneg (roundDouble_nonneg hr) (by norm_num))

/-- Adding a non-negative increment to a double does not give a smaller double. -/
theorem le_roundDouble_add {p i : ℚ} (hp : 0 ≤ p) (hfix : roundDouble p = p) (hi : 0 ≤ i) :
    p ≤ roundDouble (p + i) := by
  have := roundDouble_mono hp (show p ≤ p + i by linarith)
  rwa [hfix] at this

theorem progressTick_over (s : Page) (r : ℚ)
    (h : roundDouble (s.progress + increment r) > 90) :
    (progressTick s r).progress = 90
    ∧ (progressTick s r).intervalActive = false
    ∧ (progressTick s r).progressFillWidth = .percent 90 := by
  simp [progressTick, h]

theorem progressTick_under (s : Page) (r : ℚ)
    (h : ¬ roundDouble (s.progress + increment r) > 90) :
    (progressTick s r).progress = roundDouble (s.progress + increment r)
    ∧ (progressTick s r).intervalActive = s.intervalActive
    ∧ (progressTick s r).progressFillWidth = .percent (roundDouble (s.progress + increment r)) := by
  simp [progressTick, h]

/-- What every tick preserves: `progress` is a double between 0 and 90. -/
theorem progressTick_bounds (s : Page) (r : ℚ) (h0 : 0 ≤ s.progress) (hs : s.progress ≤ 90)
    (hfix : roundDouble s.progress = s.progress) (hr : 0 ≤ r) :
    s.progress ≤ (progressTick s r).progress
    ∧ (progressTick s r).progress ≤ 90
    ∧ roundDouble (progressTick s r).progress = (progressTick s r).progress := by
  have hi := increment_nonneg hr
  by_cases h : roundDouble (s.progress + increment r) > 90
  · rw [(progressTick_over s r h).1]
    exact ⟨hs, le_refl _, roundDouble_ninety⟩
  · rw [(progressTick_under s r h).1]
    exact ⟨le_roundDouble_add h0 hfix hi, not_lt.1 h, roundDouble_idem (by linarith)⟩

theorem runInterval_inactive (s : Page) (randoms : List ℚ) (h : s.intervalActive = false) :
    runInterval s randoms = s := by
  induction randoms with
  | nil => rfl
  | cons r rs ih =>
    have : intervalElapsed s r = s := by simp [intervalElapsed, h]
    simp only [runInterval, List.foldl_cons, this] at ih ⊢
    exact ih

theorem runInterval_append (s : Page) (xs ys : List ℚ) :
    runInterval s (xs ++ ys) = runInterval (runInterval s xs) ys := by
  simp [runInterval, List.foldl_append]

theorem accumulated_append (pre : List ℚ) (r : ℚ) :
    accumulated (pre ++ [r]) = roundDouble (accumulated pre + increment r) := by
  simp [accumulated, List.foldl_append]

/-- Without the cap the accumulated value never decreases. -/
theorem le_foldl_add (randoms : List ℚ) (h : ∀ r ∈ randoms, 0 ≤ r ∧ r < 1) (p : ℚ)
    (hp : 0 ≤ p) (hfix : roundDouble p = p) :
    p ≤ randoms.foldl (fun progress random => roundDouble (progress + increment random)) p := by
  induction randoms generalizing p with
  | nil => simp
  | cons r rs ih =>
    have hrs : ∀ x ∈ rs, 0 ≤ x ∧ x < 1 := fun x hx => h x (List.mem_cons_of_mem r hx)
    have hi := increment_nonneg (h r (List.mem_cons_self r rs)).1
    have hstep := le_roundDouble_add hp hfix hi
    have := ih hrs (roundDouble (p + increment r)) (hp.trans hstep)
      (roundDouble_idem (by linarith))
    simp only [List.foldl_cons]
    exact hstep.trans this

theorem runInterval_accumulates (randoms : List ℚ) (h : ∀ r ∈ randoms, 0 ≤ r ∧ r < 1) (s : Page)
    (ha : s.intervalActive = true) (h0 : 0 ≤ s.progress)
    (hfix : roundDouble s.progress = s.progress)
    (hle : randoms.foldl (fun progress random => roundDouble (progress + increment random))
      s.progress ≤ 90) :
    (runInterval s randoms).intervalActive = true
    ∧ (runInterval s randoms).progress
        = randoms.foldl (fun progress random => roundDouble (progress + increment random))
            s.progress := by
  induction randoms generalizing s with
  | nil => simp [runInterval, ha]
  | cons r rs ih =>
    have hrs : ∀ x ∈ rs, 0 ≤ x ∧ x < 1 := fun x hx => h x (List.mem_cons_of_mem r hx)
    have hi := increment_nonneg (h r (List.mem_cons_self r rs)).1
    have hstep := le_roundDouble_add h0 hfix hi
    have hfix2 : roundDouble (roundDouble (s.progress + increment r))
        = roundDouble (s.progress + increment r) := roundDouble_idem (by linarith)
    simp only [List.foldl_cons] at hle ⊢
    have hmono := le_foldl_add rs hrs (roundDouble (s.progress + increment r))
      (h0.trans hstep) hfix2
    have hnot : ¬ roundDouble (s.progress + increment r) > 90 := not_lt.2 (hmono.trans hle)
    obtain ⟨hp, hact, -⟩ := progressTick_under s r hnot
    have hrun : runInterval s (r :: rs) = runInterval (progressTick s r) rs := by
      simp [runInterval, intervalElapsed, ha]
    rw [hrun]
    have := ih hrs (progressTick s r) (by rw [hact, ha]) (by rw [hp]; exact h0.trans hstep)
      (by rw [hp]; exact hfix2) (by rw [hp]; exact hle)
    rw [hp] at this
    exact this

theorem written_chain (randoms : List ℚ) (h : ∀ r ∈ randoms, 0 ≤ r ∧ r < 1) (s : Page)
    (h0 : 0 ≤ s.progress) (hs : s.progress ≤ 90) (hfix : roundDouble s.progress = s.progress) :
    List.Chain (fun a b => a ≤ b) s.progress (written s randoms)
    ∧ ∀ w ∈ written s randoms, w ≤ 90 := by
  induction randoms generalizing s with
  | nil => simp [written]
  | cons r rs ih =>
    have hrs : ∀ x ∈ rs, 0 ≤ x ∧ x < 1 := fun x hx => h x (List.mem_cons_of_mem r hx)
    have hr := (h r (List.mem_cons_self r rs)).1
    by_cases ha : s.intervalActive = true
    · obtain ⟨hlo, hhi, hfix2⟩ := progressTick_bounds s r h0 hs hfix hr
      obtain ⟨hc, hb⟩ := ih hrs (progressTick s r) (h0.trans hlo) hhi hfix2
      simp only [written, ha, if_true]
      refine ⟨List.Chain.cons hlo hc, ?_⟩
      intro w hw
      rcases List.mem_cons.1 hw with rfl | hw
      · exact hhi
      · exact hb w hw
    · simp only [written, ha]
      exact ih hrs s h0 hs hfix

/-- C9: for random values in `[0, 1)`, hence increments in `[0, 15)`, the
values written to the bar by the ticks of `animateProgress` are non-decreasing
and never above 90; every tick writes the current progress to the bar; the
first tick at which the accumulated value exceeds 90 writes exactly 90 and
clears the interval, after which no later period changes anything.  Sums and
products are those of double arithmetic. -/
theorem progress_capped_at_ninety (s : Page) (randoms : List ℚ)
    (h : ∀ r ∈ randoms, 0 ≤ r ∧ r < 1) :
    List.Chain' (fun a b => a ≤ b) (written (animateProgress s) randoms)
    ∧ (∀ w ∈ written (animateProgress s) randoms, w ≤ 90)
    ∧ (∀ (page : Page) (r : ℚ),
        (progressTick page r).progressFillWidth = .percent (progressTick page r).progress)
    ∧ (∀ pre r post, randoms = pre ++ r :: post →
        accumulated pre ≤ 90 → accumulated (pre ++ [r]) > 90 →
        (runInterval (animateProgress s) pre).intervalActive = true
        ∧ (runInterval (animateProgress s) (pre ++ [r])).progressFillWidth = .percent 90
        ∧ (runInterval (animateProgress s) (pre ++ [r])).intervalActive = false
        ∧ ∀ later, runInterval (runInterval (animateProgress s) (pre ++ [r])) later
            = runInterval (animateProgress s) (pre ++ [r])) := by
  have h0 : (animateProgress s).progress = 0 := rfl
  have hact : (animateProgress s).intervalActive = true := rfl
  have hfix : roundDouble (animateProgress s).progress = (animateProgress s).progress := by
    rw [h0]
    exact roundDouble_zero
  obtain ⟨hc, hb⟩ := written_chain randoms h (animateProgress s) (by rw [h0])
    (by rw [h0]; norm_num) hfix
  refine ⟨?_, hb, ?_, ?_⟩
  · have hc2 : List.Chain' (fun a b : ℚ => a ≤ b)
        ((animateProgress s).progress :: written (animateProgress s) randoms) := hc
    exact hc2.tail
  · intro page r
    simp [progressTick]
  · intro pre r post hsplit hle hgt
    have hpre : ∀ x ∈ pre, 0 ≤ x ∧ x < 1 := by
      intro x hx
      exact h x (by rw [hsplit]; exact List.mem_append_left _ hx)
    obtain ⟨ha, hp⟩ := runInterval_accumulates pre hpre (animateProgress s) hact (by rw [h0])
      hfix (by rw [h0]; exact hle)
    rw [h0] at hp
    have hstep : runInterval (animateProgress s) (pre ++ [r])
        = progressTick (runInterval (animateProgress s) pre) r := by
      rw [runInterval_append]
      show intervalElapsed (runInterval (animateProgress s) pre) r = _
      simp [intervalElapsed, ha]
    have hover : roundDouble ((runInterval (animateProgress s) pre).progress + increment r) > 90 := by
      rw [hp]
      rw [accumulated_append] at hgt
      exact hgt
    obtain ⟨-, hoff, hw⟩ := progressTick_over _ r hover
    rw [hstep]
    exact ⟨ha, hw, hoff, fun later => runInterval_inactive _ later hoff⟩

theorem roundDouble_quarters (m : ℕ) (hm : m < 2 ^ 51) : roundDouble ((m : ℚ) / 4) = m / 4 := by
  rcases Nat.eq_zero_or_pos m with h0 | hpos
  · subst h0
    simpa using roundDouble_zero
  · have hq : (0 : ℚ) < m := by exact_mod_cast hpos
    have hlt : (m : ℚ) < 2 ^ 51 := by exact_mod_cast hm
    refine roundDouble_of_scaled (m : ℤ) (-2) ?_ (by positivity) ?_ (by norm_num)
    · norm_num [zpow_neg]
      ring
    · norm_num
      linarith

theorem accumulated_three_quarters (n : ℕ) (hn : n ≤ 16) :
    accumulated (List.replicate n (3 / 4)) = ((45 * n : ℕ) : ℚ) / 4 := by
  induction n with
  | zero => simp [accumulated]
  | succ n ih =>
    have hinc : increment (3 / 4) = 45 / 4 := by
      unfold increment
      have h3 := roundDouble_quarters 3 (by norm_num)
      have h45 := roundDouble_quarters 45 (by norm_num)
      norm_num at h3 h45
      rw [h3]
      norm_num
      exact h45
    rw [List.replicate_succ', accumulated_append, ih (by omega), hinc]
    have := roundDouble_quarters (45 * (n + 1)) (by norm_num; omega)
    rw [← this]
    congr 1
    push_cast
    ring

theorem progress_capped_at_ninety_witness :
    (∀ r ∈ List.replicate 8 (3 / 4 : ℚ) ++ 3 / 4 :: [1 / 2], 0 ≤ r ∧ r < 1)
    ∧ (∀ w ∈ written (animateProgress freshPage) (List.replicate 8 (3 / 4 : ℚ) ++ 3 / 4 :: [1 / 2]),
        w ≤ 90)
    ∧ (runInterval (animateProgress freshPage)
        (List.replicate 8 (3 / 4 : ℚ) ++ [3 / 4])).progressFillWidth = .percent 90 :=
  have hyp : ∀ r ∈ List.replicate 8 (3 / 4 : ℚ) ++ 3 / 4 :: [1 / 2], 0 ≤ r ∧ r < 1 := by
    intro r hr
    simp only [List.mem_append, List.mem_replicate, List.mem_cons, List.mem_singleton,
      List.not_mem_nil, or_false] at hr
    rcases hr with ⟨-, rfl⟩ | rfl | rfl <;> norm_num
  have hpre : accumulated (List.replicate 8 (3 / 4 : ℚ)) ≤ 90 := by
    rw [accumulated_three_quarters 8 (by norm_num)]
    norm_num
  have hnext : accumulated (List.replicate 8 (3 / 4 : ℚ) ++ [3 / 4]) > 90 := by
    rw [← List.replicate_succ', accumulated_three_quarters 9 (by norm_num)]
    norm_num
  ⟨hyp, (progress_capped_at_ninety freshPage _ hyp).2.1,
    ((progress_capped_at_ninety freshPage _ hyp).2.2.2
      (List.replicate 8 (3 / 4)) (3 / 4) [1 / 2] rfl hpre hnext).2.1⟩

end ProgressAnimation

section FieldValidation

open DonorReport

theorem validateField_flag (parseDate : String → Option Int) (now : Int) (field : Field) :
    (validateField parseDate now field).1 = false ↔
      (field.required = true ∧ trim field.value = "")
      ∨ (field.type = "date" ∧ field.value ≠ "" ∧ includes field.name "date_from" = true
          ∧ ∃ t, parseDate field.value = some t ∧ t > now) := by
  have hfst : (validateField parseDate now field).1 =
      (if field.type = "date" ∧ field.value ≠ "" then
        match parseDate field.value with
        | some selectedDate =>
          if (includes field.name "date_from" && decide (selectedDate > now)) = true then false
          else (if (field.required && decide (trim field.value = "")) = true then false else true)
        | none => (if (field.required && decide (trim field.value = "")) = true then false else true)
      else (if (field.required && decide (trim field.value = "")) = true then false else true)) := by
    unfold validateField
    simp only []
    split_ifs <;> rfl
  rw [hfst]
  by_cases hr1 : field.required = true <;> by_cases hr2 : trim field.value = "" <;>
    by_cases hd1 : field.type = "date" <;> by_cases hd2 : field.value = "" <;>
    rcases hp : parseDate field.value with _ | t <;>
    by_cases hi : includes field.name "date_from" = true <;>
    simp [hr1, hr2, hd1, hd2, hp, hi]

theorem validateField_classes (parseDate : String → Option Int) (now : Int) (field : Field) :
    Dom.contains (validateField parseDate now field).2.parentClassList "has-success"
        = (validateField parseDate now field).1
    ∧ Dom.contains (validateField parseDate now field).2.parentClassList "has-error"
        = !(validateField parseDate now field).1 := by
  have hne : ("has-error" : String) ≠ "has-success" := by decide
  have hne' : ("has-success" : String) ≠ "has-error" := by decide
  unfold validateField
  simp only []
  split_ifs <;>
    simp_all [contains_add, contains_remove, contains_add_of_ne, contains_remove_of_ne]

/-- C13: `validateField` returns false exactly when the field is required and
its value is empty after trimming, or its type is `date`, its value is
non-empty, its name contains `date_from` and the selected date is later than
the current time; afterwards the parent has exactly one of the classes
`has-success` and `has-error`, `has-success` exactly when the result is true. -/
theorem validateField_result_and_classes (parseDate : String → Option Int) (now : Int)
    (field : Field) :
    ((validateField parseDate now field).1 = false ↔
      (field.required = true ∧ trim field.value = "")
      ∨ (field.type = "date" ∧ field.value ≠ "" ∧ includes field.name "date_from" = true
          ∧ ∃ t, parseDate field.value = some t ∧ t > now))
    ∧ (Dom.contains (validateField parseDate now field).2.parentClassList "has-success" = true
        ↔ (validateField parseDate now field).1 = true)
    ∧ (Dom.contains (validateField parseDate now field).2.parentClassList "has-error" = true
        ↔ ¬ Dom.contains (validateField parseDate now field).2.parentClassList "has-success"
            = true) := by
  obtain ⟨hs, he⟩ := validateField_classes parseDate now field
  refine ⟨validateField_flag parseDate now field, ?_, ?_⟩
  · rw [hs]
  · rw [hs, he]
    cases (validateField parseDate now field).1 <;> simp

end FieldValidation

section Alerts

open DonorReport

/-- C14 fails on the code: an error alert shown while the timeout of an earlier
success alert is pending sets no timeout of its own, yet when the pending
timeout expires its callback finds the error alert, marks it `fade-out` and
sets the timeout that removes it, so the error alert is dismissed without the
user, Escape or a later alert. -/
theorem stale_timeout_dismisses_error_alert :
    (showAlert freshPage "success" "Export Complete" (.string "done")).timers
        = [{ delay := 5000, callback := .autoDismiss }]
    ∧ newTimers (showAlert freshPage "success" "Export Complete" (.string "done"))
        (showAlert (showAlert freshPage "success" "Export Complete" (.string "done"))
          "error" "Network Error" (.string "failed")) = []
    ∧ (showAlert (showAlert freshPage "success" "Export Complete" (.string "done"))
          "error" "Network Error" (.string "failed")).alertContainer
        = [{ id := 1, classList := ["alert", "alert-error", "alert-dismissible", "fade-in"]
             icon := "fas fa-exclamation-triangle", title := "Network Error"
             message := .string "failed" }]
    ∧ (expire (showAlert (showAlert freshPage "success" "Export Complete" (.string "done"))
          "error" "Network Error" (.string "failed"))
          { delay := 5000, callback := .autoDismiss }).alertContainer
        = [{ id := 1
             classList := ["alert", "alert-error", "alert-dismissible", "fade-in", "fade-out"]
             icon := "fas fa-exclamation-triangle", title := "Network Error"
             message := .string "failed" }]
    ∧ (expire (expire (showAlert (showAlert freshPage "success" "Export Complete" (.string "done"))
          "error" "Network Error" (.string "failed"))
          { delay := 5000, callback := .autoDismiss })
          { delay := 300, callback := .removeAlert 1 }).alertContainer = [] := by
  decide

end Alerts
